import Mathlib

/-!
Shallow embedding of the card-custody tracker (`app.py`, `models.py`).

Modelling conventions, fixed once for the whole file:

* A SQLAlchemy `datetime` column is modelled as `Nat` (a point on a discrete
  time line); `strftime("%Y-%m-%d %H:%M:%S")` is modelled as decimal
  rendering (`toString`), which like the source format is injective and is
  only ever compared for string equality.  Nullable datetime columns become
  `Option Nat`.
* Nullable string columns are modelled as `String`, with `""` standing for
  SQL NULL: the source only ever tests these fields for Python truthiness
  (`if last.nombre:`) or coalesces them (`or ""`), and both operations
  identify `None` with `""`.
* A database table is a `List` of rows in insertion (primary-key) order.
* `Delivery.query...order_by(Delivery.entrega_at.asc()).all()` sorts only by
  `entrega_at`; the relational backend guarantees nothing about the relative
  order of rows whose `entrega_at` collide.  A *valid query result* is
  therefore any permutation of the matching rows that is sorted by
  `entrega_at` (`isQueryResult` below), and functions that consume a query
  result (`compute_card_status`, `get_last_open_delivery`) take the result
  list as their argument.
* `hashlib.sha256(...).hexdigest()` is an external library call; it is
  modelled as an injective tagging function on strings (only equality of
  digests is ever used by the source).
-/

/-- Row of the `deliveries` table (`models.py`, class `Delivery`). -/
structure Delivery where
  id : Nat
  category : String
  card_id : Option Nat
  card_number : String
  rut : String
  nombre : String
  cargo : String
  empresa : String
  entrega_at : Option Nat
  devolucion_at : Option Nat
deriving DecidableEq, Repr

/-- Row of the `cards` table (`models.py`, class `Card`); only the columns
the verified operations read or write are carried. -/
structure Card where
  id : Nat := 0
  category : String
  n : String := ""
  modulo_sector : String := ""
  categoria : String := ""
  subcategoria : String := ""
  nombre_tarjeta : String := ""
  tipo_tarjeta : String := ""
  numero_tarjeta : String := ""
  status : String := "Activa"
deriving DecidableEq, Repr

/-- SQL `ORDER BY entrega_at ASC` comparison on the nullable `entrega_at`
column: NULL sorts first, non-NULL values by numeric order. -/
def oleNat : Option Nat → Option Nat → Bool
  | none, _ => true
  | some _, none => false
  | some a, some b => a ≤ b

/-- Embeds `format_dt` (`app.py` line 111): `""` for `None`, otherwise the
rendered timestamp. -/
def format_dt : Option Nat → String
  | none => ""
  | some t => toString t

/-- The rows of `store` returned by
`Delivery.query.filter_by(category=card.category, card_id=card.id)`
(`app.py` line 120), in insertion order. -/
def cardEvents (store : List Delivery) (cat : String) (cid : Nat) : List Delivery :=
  store.filter (fun d => decide (d.category = cat ∧ d.card_id = some cid))

/-- The rows of `store` returned by the open-delivery query
(`app.py` lines 142-143): same filter plus `devolucion_at IS NULL`. -/
def openEvents (store : List Delivery) (cat : String) (cid : Nat) : List Delivery :=
  store.filter
    (fun d => decide (d.category = cat ∧ d.card_id = some cid ∧ d.devolucion_at = none))

/-- The list is sorted ascending by `entrega_at` (the effect of
`.order_by(Delivery.entrega_at.asc())`). -/
def sortedByEntrega (l : List Delivery) : Prop :=
  l.Pairwise (fun a b => oleNat a.entrega_at b.entrega_at = true)

instance (l : List Delivery) : Decidable (sortedByEntrega l) := by
  unfold sortedByEntrega; infer_instance

/-- A valid result of the delivery query of `compute_card_status`
(`app.py` lines 119-123): some permutation of the card's stored events that
is sorted by `entrega_at` (ties are left unordered by the backend). -/
def isQueryResult (store : List Delivery) (cat : String) (cid : Nat)
    (l : List Delivery) : Prop :=
  List.Perm l (cardEvents store cat cid) ∧ sortedByEntrega l

instance (store : List Delivery) (cat : String) (cid : Nat) (l : List Delivery) :
    Decidable (isQueryResult store cat cid l) := by
  unfold isQueryResult; infer_instance

/-- A valid result of the open-delivery query of `get_last_open_delivery`
(`app.py` lines 141-146). -/
def isOpenQueryResult (store : List Delivery) (cat : String) (cid : Nat)
    (l : List Delivery) : Prop :=
  List.Perm l (openEvents store cat cid) ∧ sortedByEntrega l

instance (store : List Delivery) (cat : String) (cid : Nat) (l : List Delivery) :
    Decidable (isOpenQueryResult store cat cid l) := by
  unfold isOpenQueryResult; infer_instance

/-- Embeds `compute_card_status` (`app.py` lines 117-136) applied to a query
result `deliveries`.  Returns `(texto_estado, tipo_estado)`. -/
def compute_card_status (deliveries : List Delivery) : String × String :=
  match deliveries.getLast? with
  | none => ("Disponible", "Disponible")
  | some lastd =>
    match lastd.devolucion_at with
    | some t => ("Disponible (devuelto " ++ format_dt (some t) ++ ")", "Devueltas")
    | none =>
      let base := if lastd.nombre ≠ "" then "Entregada a " ++ lastd.nombre else "Entregada"
      let base2 :=
        match lastd.entrega_at with
        | some t => base ++ " (" ++ format_dt (some t) ++ ")"
        | none => base
      (base2, "Entregadas")

/-- Embeds `get_last_open_delivery` (`app.py` lines 139-147) applied to an
open-delivery query result: `deliveries[-1] if deliveries else None`. -/
def get_last_open_delivery (deliveries : List Delivery) : Option Delivery :=
  deliveries.getLast?

/-- C4: the empty history yields the Available state and text. -/
theorem compute_card_status_empty :
    compute_card_status [] = ("Disponible", "Disponible") := rfl

/-- Concrete delivery row builder used by witnesses and counterexamples:
a `MODULO` event of card 1 with the given id, timestamps and holder name. -/
def mkDel (i : Nat) (ent dev : Option Nat) (nom : String) : Delivery :=
  { id := i, category := "MODULO", card_id := some 1, card_number := "",
    rut := "", nombre := nom, cargo := "", empresa := "",
    entrega_at := ent, devolucion_at := dev }

/-- C2: on a history sorted ascending by `entrega_at` whose last event has a
non-null `devolucion_at`, the status is `Devueltas` and the text is exactly
`Disponible (devuelto <ts>)` with that return timestamp. -/
theorem compute_card_status_returned (l : List Delivery) (e : Delivery) (t : Nat)
    (_hs : sortedByEntrega l) (hl : l.getLast? = some e)
    (hd : e.devolucion_at = some t) :
    compute_card_status l =
      ("Disponible (devuelto " ++ format_dt (some t) ++ ")", "Devueltas") := by
  simp only [compute_card_status, hl, hd]

/-- Witness for `compute_card_status_returned` at a one-event history. -/
theorem compute_card_status_returned_witness :
    compute_card_status [mkDel 1 (some 5) (some 7) "Ana"] =
      ("Disponible (devuelto " ++ format_dt (some 7) ++ ")", "Devueltas") :=
  compute_card_status_returned [mkDel 1 (some 5) (some 7) "Ana"]
    (mkDel 1 (some 5) (some 7) "Ana") 7 (by decide) (by decide) (by decide)

/-- C3: on a history sorted ascending by `entrega_at` whose last event has a
null `devolucion_at`, the status is `Entregadas`; the text is
`Entregada a <nombre>` when the holder name is non-empty and the generic
`Entregada` when it is blank, in both cases followed by the
`(<entrega_at>)` suffix exactly when `entrega_at` is present. -/
theorem compute_card_status_delivered (l : List Delivery) (e : Delivery)
    (_hs : sortedByEntrega l) (hl : l.getLast? = some e)
    (hd : e.devolucion_at = none) :
    (compute_card_status l).2 = "Entregadas"
    ∧ (∀ t, e.entrega_at = some t →
        compute_card_status l =
          ((if e.nombre = "" then "Entregada" else "Entregada a " ++ e.nombre)
            ++ " (" ++ format_dt (some t) ++ ")", "Entregadas"))
    ∧ (e.entrega_at = none →
        compute_card_status l =
          ((if e.nombre = "" then "Entregada" else "Entregada a " ++ e.nombre),
            "Entregadas")) := by
  refine ⟨?_, ?_, ?_⟩
  · simp only [compute_card_status, hl, hd]
  · intro t ht
    simp only [compute_card_status, hl, hd, ht]
    by_cases hn : e.nombre = "" <;> simp [hn]
  · intro ht
    simp only [compute_card_status, hl, hd, ht]
    by_cases hn : e.nombre = "" <;> simp [hn]

/-- Witness for `compute_card_status_delivered`: a named, timestamped open
event yields `Entregada a Ana (5)`. -/
theorem compute_card_status_delivered_witness :
    compute_card_status [mkDel 1 (some 5) none "Ana"] =
      ((if (mkDel 1 (some 5) none "Ana").nombre = "" then "Entregada"
        else "Entregada a " ++ (mkDel 1 (some 5) none "Ana").nombre)
        ++ " (" ++ format_dt (some 5) ++ ")", "Entregadas") :=
  (compute_card_status_delivered [mkDel 1 (some 5) none "Ana"]
    (mkDel 1 (some 5) none "Ana") (by decide) (by decide) (by decide)).2.1
    5 (by decide)

/-- The whitespace class of Python `str.strip()`. -/
def isPySpace (c : Char) : Bool :=
  c = ' ' || c = '\t' || c = '\n' || c = '\r' || c = '\x0b' || c = '\x0c'

/-- Embeds Python `str.strip()`: drops leading and trailing whitespace. -/
def pyStrip (s : String) : String :=
  String.mk (((s.data.dropWhile isPySpace).reverse.dropWhile isPySpace).reverse)

/-- Embeds the local helper `parse_dt_str` of `deliver_card` (`app.py` lines
511-517): empty input and unparsable input both yield `None`; parsing is
modelled as reading the decimal rendering of a time point. -/
def parse_dt_str (s : String) : Option Nat :=
  if s = "" then none else s.toNat?

/-- The in-place field assignments of the `if last_open:` branch of
`deliver_card` (`app.py` lines 522-529): `card_number`, `category`,
`card_id` and `id` are untouched. -/
def updateOpenDelivery (d : Delivery) (rut nombre cargo empresa : String)
    (entrega_at : Nat) (devolucion_at : Option Nat) : Delivery :=
  { d with
    rut := rut, nombre := nombre, cargo := cargo, empresa := empresa,
    entrega_at := some entrega_at, devolucion_at := devolucion_at }

/-- The `Delivery(...)` constructor call of the `else` branch of
`deliver_card` (`app.py` lines 531-542), snapshotting
`card.numero_tarjeta or ""` into `card_number`; `nextId` is the primary key
the store assigns to the new row. -/
def newDelivery (card : Card) (nextId : Nat) (rut nombre cargo empresa : String)
    (entrega_at : Nat) (devolucion_at : Option Nat) : Delivery :=
  { id := nextId, category := card.category, card_id := some card.id,
    card_number := card.numero_tarjeta, rut := rut, nombre := nombre,
    cargo := cargo, empresa := empresa, entrega_at := some entrega_at,
    devolucion_at := devolucion_at }

/-- Outcome of a `deliver_card` POST: the delivery table after the request
and the flashed validation message, if any. -/
structure DeliverOutcome where
  store : List Delivery
  error : Option String
deriving DecidableEq, Repr

/-- Embeds the POST branch of `deliver_card` (`app.py` lines 491-547).
`last_open` is the result of `get_last_open_delivery` for the card, computed
from an open-delivery query result; the six string arguments are the raw
form fields, stripped exactly as the source strips them.  Mutating the
`last_open` row in place is rendered as rewriting the row with that primary
key; creating a row appends it. -/
def deliver_card_post (store : List Delivery) (card : Card)
    (last_open : Option Delivery) (nextId now : Nat)
    (rutForm nombreForm cargoForm empresaForm entregaForm devolucionForm : String) :
    DeliverOutcome :=
  let rut := pyStrip rutForm
  let nombre := pyStrip nombreForm
  let cargo := pyStrip cargoForm
  let empresa := pyStrip empresaForm
  let entrega_str := pyStrip entregaForm
  let devolucion_str := pyStrip devolucionForm
  if rut = "" ∨ nombre = "" then
    { store := store, error := some "RUT y Nombre son obligatorios." }
  else
    let entrega_at := (parse_dt_str entrega_str).getD now
    let devolucion_at := parse_dt_str devolucion_str
    match last_open with
    | some e =>
      { store := store.map (fun d =>
          if d.id = e.id then
            updateOpenDelivery d rut nombre cargo empresa entrega_at devolucion_at
          else d),
        error := none }
    | none =>
      { store :=
          store ++ [newDelivery card nextId rut nombre cargo empresa entrega_at devolucion_at],
        error := none }

/-- Rewriting rows pointwise with a map that does not change the value of a
row predicate leaves the number of matching rows unchanged. -/
theorem length_filter_map_invariant (f : Delivery → Delivery)
    (p : Delivery → Bool) (h : ∀ d, p (f d) = p d) (l : List Delivery) :
    ((l.map f).filter p).length = (l.filter p).length := by
  rw [← List.countP_eq_length_filter, ← List.countP_eq_length_filter,
    List.countP_map]
  exact List.countP_congr (fun a _ => by simp [Function.comp, h a])

/-- C7: when the stripped `rut` or `nombre` form field is empty, the POST is
rejected with the `RUT y Nombre son obligatorios.` message and the delivery
table is left exactly as it was. -/
theorem deliver_card_requires_holder (store : List Delivery) (card : Card)
    (lo : Option Delivery) (nextId now : Nat)
    (rutF nomF carF empF entF devF : String)
    (h : pyStrip rutF = "" ∨ pyStrip nomF = "") :
    deliver_card_post store card lo nextId now rutF nomF carF empF entF devF =
      { store := store, error := some "RUT y Nombre son obligatorios." } := by
  unfold deliver_card_post
  rw [if_pos h]

/-- Witness for `deliver_card_requires_holder`: an empty name leaves a
one-row table unchanged and flashes the validation message. -/
theorem deliver_card_requires_holder_witness :
    deliver_card_post [mkDel 1 (some 5) none "Ana"] { id := 1, category := "MODULO" }
        none 2 99 "11.111.111-1" "  " "" "" "" "" =
      { store := [mkDel 1 (some 5) none "Ana"],
        error := some "RUT y Nombre son obligatorios." } :=
  deliver_card_requires_holder [mkDel 1 (some 5) none "Ana"]
    { id := 1, category := "MODULO" } none 2 99 "11.111.111-1" "  " "" "" "" ""
    (Or.inr (by decide))

/-- C1: with valid holder fields, a POST of `deliver_card` while the
open-delivery query yields an open row rewrites that row in place — the
table keeps exactly the same row ids, so the card's event count does not
grow — whereas a POST with no open row appends exactly one new event whose
`card_number` snapshots the card's current `numero_tarjeta`, growing the
card's event count by exactly one. -/
theorem deliver_card_event_counts (store : List Delivery) (card : Card)
    (l : List Delivery) (nextId now : Nat)
    (rutF nomF carF empF entF devF : String)
    (_hq : isOpenQueryResult store card.category card.id l)
    (hr : pyStrip rutF ≠ "") (hn : pyStrip nomF ≠ "") :
    (∀ e, get_last_open_delivery l = some e →
      (deliver_card_post store card (some e) nextId now rutF nomF carF empF entF devF).store.map
          Delivery.id = store.map Delivery.id
      ∧ (cardEvents
          (deliver_card_post store card (some e) nextId now rutF nomF carF empF entF devF).store
          card.category card.id).length
        = (cardEvents store card.category card.id).length)
    ∧ (get_last_open_delivery l = none →
      (deliver_card_post store card none nextId now rutF nomF carF empF entF devF).store
        = store ++ [newDelivery card nextId (pyStrip rutF) (pyStrip nomF) (pyStrip carF)
            (pyStrip empF) ((parse_dt_str (pyStrip entF)).getD now) (parse_dt_str (pyStrip devF))]
      ∧ (cardEvents
          (deliver_card_post store card none nextId now rutF nomF carF empF entF devF).store
          card.category card.id).length
        = (cardEvents store card.category card.id).length + 1
      ∧ (newDelivery card nextId (pyStrip rutF) (pyStrip nomF) (pyStrip carF)
          (pyStrip empF) ((parse_dt_str (pyStrip entF)).getD now)
          (parse_dt_str (pyStrip devF))).card_number = card.numero_tarjeta) := by
  have hcond : ¬(pyStrip rutF = "" ∨ pyStrip nomF = "") := fun h => h.elim hr hn
  constructor
  · intro e _
    have hpost :
        (deliver_card_post store card (some e) nextId now rutF nomF carF empF entF devF).store
          = store.map (fun d =>
              if d.id = e.id then
                updateOpenDelivery d (pyStrip rutF) (pyStrip nomF) (pyStrip carF)
                  (pyStrip empF) ((parse_dt_str (pyStrip entF)).getD now)
                  (parse_dt_str (pyStrip devF))
              else d) := by
      unfold deliver_card_post
      rw [if_neg hcond]
    rw [hpost]
    constructor
    · rw [List.map_map]
      refine List.map_congr_left (fun d _ => ?_)
      by_cases hid : d.id = e.id <;> simp [hid, updateOpenDelivery]
    · unfold cardEvents
      refine length_filter_map_invariant _ _ (fun d => ?_) store
      by_cases hid : d.id = e.id <;> simp [hid, updateOpenDelivery]
  · intro _
    have hpost :
        (deliver_card_post store card none nextId now rutF nomF carF empF entF devF).store
          = store ++ [newDelivery card nextId (pyStrip rutF) (pyStrip nomF) (pyStrip carF)
              (pyStrip empF) ((parse_dt_str (pyStrip entF)).getD now)
              (parse_dt_str (pyStrip devF))] := by
      unfold deliver_card_post
      rw [if_neg hcond]
    refine ⟨hpost, ?_, rfl⟩
    rw [hpost]
    unfold cardEvents
    rw [List.filter_append, List.length_append]
    simp [newDelivery]

/-- Witness for `deliver_card_event_counts`: card 1 of category `MODULO`
with one open event; the open branch keeps the single row id and event
count. -/
theorem deliver_card_event_counts_witness :
    (deliver_card_post [mkDel 1 (some 5) none "Ana"] { id := 1, category := "MODULO" }
        (some (mkDel 1 (some 5) none "Ana")) 2 99 "11.111.111-1" "Beto" "" "" "" "").store.map
        Delivery.id = [mkDel 1 (some 5) none "Ana"].map Delivery.id
    ∧ (cardEvents
        (deliver_card_post [mkDel 1 (some 5) none "Ana"] { id := 1, category := "MODULO" }
          (some (mkDel 1 (some 5) none "Ana")) 2 99 "11.111.111-1" "Beto" "" "" "" "").store
        "MODULO" 1).length
      = (cardEvents [mkDel 1 (some 5) none "Ana"] "MODULO" 1).length :=
  (deliver_card_event_counts [mkDel 1 (some 5) none "Ana"] { id := 1, category := "MODULO" }
    [mkDel 1 (some 5) none "Ana"] 2 99 "11.111.111-1" "Beto" "" "" "" ""
    (by decide) (by decide) (by decide)).1 (mkDel 1 (some 5) none "Ana") (by decide)

/-- Models `_sha256` (`app.py` line 28).  The SHA-256 hex digest of an
external library is abstracted as an injective tagging function: the source
only ever compares digests for equality. -/
def _sha256 (s : String) : String :=
  "sha256:" ++ s

/-- Embeds `DEFAULT_PASSWORDS` (`app.py` lines 32-36). -/
def DEFAULT_PASSWORDS : List String :=
  ["Javier_Aramark_2025", "Lorena_Aramark_2025", "Carolina_Aramark_2025"]

/-- Embeds `ensure_default_passwords` (`app.py` lines 44-54) on the
`passwords` table, represented by its list of stored hashes in insertion
order: every default whose hash is not already present is appended. -/
def ensure_default_passwords (store : List String) : List String :=
  store ++ (DEFAULT_PASSWORDS.filter (fun p => decide (_sha256 p ∉ store))).map _sha256

/-- Embeds `verify_password` (`app.py` lines 39-41): true iff the digest of
the plaintext is a stored hash. -/
def verify_password (store : List String) (plain : String) : Bool :=
  decide (_sha256 plain ∈ store)

/-- C9 (amended): `ensure_default_passwords` is idempotent — a second run
finds every default hash already present and adds nothing, so running it
twice leaves the credential store identical to running it once. -/
theorem ensure_default_passwords_idempotent (store : List String) :
    ensure_default_passwords (ensure_default_passwords store)
      = ensure_default_passwords store := by
  unfold ensure_default_passwords
  have hnil :
      DEFAULT_PASSWORDS.filter
          (fun p => decide (_sha256 p ∉
            (store ++ (DEFAULT_PASSWORDS.filter
              (fun q => decide (_sha256 q ∉ store))).map _sha256))) = [] := by
    rw [List.filter_eq_nil_iff]
    intro p hp
    simp only [decide_eq_true_eq, not_not, List.mem_append]
    by_cases hs : _sha256 p ∈ store
    · exact Or.inl hs
    · refine Or.inr (List.mem_map_of_mem _ ?_)
      rw [List.mem_filter]
      exact ⟨hp, by simpa using hs⟩
  rw [hnil]
  simp

/-- C9 counterexample: on a non-empty credential store that lacks the
default hashes, `ensure_default_passwords` still seeds them — the store is
not left unchanged, contradicting seeding only when the store is empty. -/
theorem ensure_default_passwords_seeds_nonempty :
    ["deadbeef"] ≠ [] ∧
    ensure_default_passwords ["deadbeef"] ≠ ["deadbeef"] := by
  constructor
  · decide
  · decide

/-- Embeds `CATEGORY_DEFINITIONS` (`app.py` lines 62-92): per category, the
list of `(field_name, label)` column mappings. -/
def CATEGORY_DEFINITIONS : String → Option (List (String × String))
  | "MODULO" => some
      [("n", "N°"), ("modulo_sector", "Módulo / Sector"),
       ("nombre_tarjeta", "Nombre de la Tarjeta"), ("tipo_tarjeta", "Tipo de Tarjeta"),
       ("numero_tarjeta", "Numero de tarjeta")]
  | "MAESTRA" => some
      [("n", "N°"), ("categoria", "Categoría"),
       ("nombre_tarjeta", "Nombre de la Tarjeta"), ("tipo_tarjeta", "Tipo de Tarjeta"),
       ("numero_tarjeta", "Numero Tarjeta")]
  | "MANTENCION" => some
      [("n", "N°"), ("categoria", "Categoría"), ("subcategoria", "Subcategoría"),
       ("nombre_tarjeta", "Nombre de la Tarjeta"), ("tipo_tarjeta", "Tipo de Tarjeta"),
       ("numero_tarjeta", "Numero Tarjeta")]
  | "PROVISORIA" => some
      [("n", "N°"), ("categoria", "Categoría"),
       ("nombre_tarjeta", "Nombre de la Tarjeta"), ("tipo_tarjeta", "Tipo de Tarjeta"),
       ("numero_tarjeta", "Numero Tarjeta")]
  | _ => none

/-- The per-field value lookup of `import_cards` (`app.py` lines 403-408):
the canonical field key is tried first against the sheet columns, then the
human-readable label; a missing column yields the empty string.  A sheet row
is modelled as a function from column name to cell text. -/
def rowValue (cols : List String) (row : String → String)
    (field label : String) : String :=
  if field ∈ cols then pyStrip (row field)
  else if label ∈ cols then pyStrip (row label)
  else ""

/-- The `setattr(card, field_name, value)` of `app.py` line 411, dispatching
on the known card field names. -/
def setField (c : Card) (f v : String) : Card :=
  if f = "n" then { c with n := v }
  else if f = "modulo_sector" then { c with modulo_sector := v }
  else if f = "categoria" then { c with categoria := v }
  else if f = "subcategoria" then { c with subcategoria := v }
  else if f = "nombre_tarjeta" then { c with nombre_tarjeta := v }
  else if f = "tipo_tarjeta" then { c with tipo_tarjeta := v }
  else if f = "numero_tarjeta" then { c with numero_tarjeta := v }
  else c

/-- One iteration of the inner field loop of `import_cards` (`app.py` lines
403-412): a non-empty mapped value is assigned and clears the `empty`
flag. -/
def buildStep (cols : List String) (row : String → String)
    (acc : Card × Bool) (fl : String × String) : Card × Bool :=
  let value := rowValue cols row fl.1 fl.2
  if value ≠ "" then (setField acc.1 fl.1 value, false) else acc

/-- The card built from one sheet row by `import_cards` (`app.py` lines
400-412), together with its final `empty` flag. -/
def buildCard (cat : String) (fields : List (String × String))
    (cols : List String) (row : String → String) : Card × Bool :=
  fields.foldl (buildStep cols row) ({ category := cat }, true)

/-- The raw status cell of a sheet row (`app.py` lines 415-419): the
`status` column is tried first, then the `Activa / Inactiva` label. -/
def rawStatus (cols : List String) (row : String → String) : String :=
  if "status" ∈ cols then pyStrip (row "status")
  else if "Activa / Inactiva" ∈ cols then pyStrip (row "Activa / Inactiva")
  else ""

/-- The stored status of an imported row (`app.py` lines 421-423): any value
other than `Activa` or `Inactiva` defaults to `Activa`. -/
def rowStatus (cols : List String) (row : String → String) : String :=
  let sv := rawStatus cols row
  if sv = "Activa" ∨ sv = "Inactiva" then sv else "Activa"

/-- One iteration of the row loop of `import_cards` (`app.py` lines
399-427): a row whose `empty` flag is cleared is appended to the created
cards and counted. -/
def importStep (cat : String) (fields : List (String × String))
    (cols : List String) (acc : List Card × Nat) (row : String → String) :
    List Card × Nat :=
  let cb := buildCard cat fields cols row
  let card := { cb.1 with status := rowStatus cols row }
  if cb.2 = false then (acc.1 ++ [card], acc.2 + 1) else acc

/-- The row loop of `import_cards` (`app.py` lines 397-427) over a parsed
sheet: returns the created cards in order and the `imported` counter. -/
def import_rows (cat : String) (fields : List (String × String))
    (cols : List String) (rows : List (String → String)) : List Card × Nat :=
  rows.foldl (importStep cat fields cols) ([], 0)

/-- Embeds `import_cards` (`app.py` lines 380-435) for a readable sheet:
`None` models the 404 on an unknown category. -/
def import_cards (cat : String) (cols : List String)
    (rows : List (String → String)) : Option (List Card × Nat) :=
  (CATEGORY_DEFINITIONS cat).map (fun fields => import_rows cat fields cols rows)

/-- The `empty` flag computed by the field loop: true exactly when the row
contributed no non-empty mapped value (relative to the incoming flag). -/
theorem buildCard_flag (cols : List String) (row : String → String) :
    ∀ (fields : List (String × String)) (c : Card) (b : Bool),
    (fields.foldl (buildStep cols row) (c, b)).2
      = (b && !(fields.any (fun fl => decide (rowValue cols row fl.1 fl.2 ≠ "")))) := by
  intro fields
  induction fields with
  | nil => intro c b; simp
  | cons fl t ih =>
    intro c b
    simp only [List.foldl_cons, List.any_cons]
    by_cases hv : rowValue cols row fl.1 fl.2 ≠ ""
    · rw [show buildStep cols row (c, b) fl
          = (setField c fl.1 (rowValue cols row fl.1 fl.2), false) by
        unfold buildStep; rw [if_pos hv]]
      rw [ih]
      simp [hv]
    · rw [show buildStep cols row (c, b) fl = (c, b) by
        unfold buildStep; rw [if_neg hv]]
      rw [ih]
      simp [hv]

/-- Unfolding of the row loop of `import_cards`: the created cards are the
non-empty rows in order, each with its normalized status, and the counter
adds the number of non-empty rows. -/
theorem import_rows_go (cat : String) (fields : List (String × String))
    (cols : List String) :
    ∀ (rows : List (String → String)) (acc : List Card × Nat),
    rows.foldl (importStep cat fields cols) acc
      = (acc.1 ++ (rows.filter (fun row => !(buildCard cat fields cols row).2)).map
          (fun row => { (buildCard cat fields cols row).1 with status := rowStatus cols row }),
        acc.2 + (rows.filter (fun row => !(buildCard cat fields cols row).2)).length) := by
  intro rows
  induction rows with
  | nil => intro acc; simp
  | cons r t ih =>
    intro acc
    simp only [List.foldl_cons, List.filter_cons]
    by_cases hb : (buildCard cat fields cols r).2 = false
    · rw [show importStep cat fields cols acc r
          = (acc.1 ++ [{ (buildCard cat fields cols r).1 with
              status := rowStatus cols r }], acc.2 + 1) by
        unfold importStep; rw [if_pos hb]]
      rw [ih]
      simp only [hb]
      refine Prod.ext ?_ ?_
      · simp [List.append_assoc]
      · simp
        omega
    · rw [show importStep cat fields cols acc r = acc by
        unfold importStep; rw [if_neg hb]]
      rw [ih]
      have hb2 : (buildCard cat fields cols r).2 = true := by
        cases h : (buildCard cat fields cols r).2
        · exact absurd h hb
        · rfl
      simp [hb2]

/-- C8: for a bulk import into a known category, the reported imported count
equals the number of cards created, both equal the number of rows with at
least one non-empty mapped field (rows with all mapped fields empty are
skipped), the created cards are exactly those rows' cards in order, and a
status cell that is neither `Activa` nor `Inactiva` is stored as
`Activa`. -/
theorem import_cards_spec (cat : String) (fields : List (String × String))
    (cols : List String) (rows : List (String → String))
    (hcat : CATEGORY_DEFINITIONS cat = some fields) :
    import_cards cat cols rows = some (import_rows cat fields cols rows)
    ∧ (import_rows cat fields cols rows).2
      = (import_rows cat fields cols rows).1.length
    ∧ (import_rows cat fields cols rows).2
      = (rows.filter (fun row =>
          fields.any (fun fl => decide (rowValue cols row fl.1 fl.2 ≠ "")))).length
    ∧ (import_rows cat fields cols rows).1
      = (rows.filter (fun row =>
          fields.any (fun fl => decide (rowValue cols row fl.1 fl.2 ≠ "")))).map
          (fun row => { (buildCard cat fields cols row).1 with
            status := rowStatus cols row })
    ∧ (∀ row : String → String, rawStatus cols row ≠ "Activa" →
        rawStatus cols row ≠ "Inactiva" → rowStatus cols row = "Activa") := by
  have hpred : ∀ row : String → String,
      (!(buildCard cat fields cols row).2)
        = fields.any (fun fl => decide (rowValue cols row fl.1 fl.2 ≠ "")) := by
    intro row
    unfold buildCard
    rw [buildCard_flag]
    simp
  have hgo := import_rows_go cat fields cols rows ([], 0)
  have hfil : rows.filter (fun row => !(buildCard cat fields cols row).2)
      = rows.filter (fun row =>
          fields.any (fun fl => decide (rowValue cols row fl.1 fl.2 ≠ ""))) :=
    List.filter_congr (fun row _ => hpred row)
  refine ⟨?_, ?_, ?_, ?_, ?_⟩
  · unfold import_cards
    rw [hcat]
    rfl
  · unfold import_rows
    rw [hgo]
    simp
  · unfold import_rows
    rw [hgo, hfil]
    simp
  · unfold import_rows
    rw [hgo, hfil]
    simp
  · intro row hA hI
    unfold rowStatus
    rw [if_neg (by simp [hA, hI])]

/-- Witness for `import_cards_spec`: importing a one-row sheet into
`MODULO` whose status cell is unrecognized stores `Activa`. -/
theorem import_cards_spec_witness :
    rowStatus ["status"] (fun _ => "bogus") = "Activa" :=
  (import_cards_spec "MODULO"
    [("n", "N°"), ("modulo_sector", "Módulo / Sector"),
     ("nombre_tarjeta", "Nombre de la Tarjeta"), ("tipo_tarjeta", "Tipo de Tarjeta"),
     ("numero_tarjeta", "Numero de tarjeta")]
    ["status"] [] rfl).2.2.2.2 (fun _ => "bogus") (by decide) (by decide)

/-- The `ORDER BY` comparison is reflexive. -/
theorem oleNat_refl (x : Option Nat) : oleNat x x = true := by
  cases x <;> simp [oleNat]

/-- The `ORDER BY` comparison is antisymmetric on the sort key. -/
theorem oleNat_antisymm {x y : Option Nat} (hxy : oleNat x y = true)
    (hyx : oleNat y x = true) : x = y := by
  cases x <;> cases y <;> simp_all [oleNat]
  omega

/-- In a `Pairwise`-ordered list, every element is the last one or relates
to it. -/
theorem getLast?_max_of_pairwise {α : Type} {R : α → α → Prop} :
    ∀ (l : List α) (e : α), l.Pairwise R → l.getLast? = some e →
      ∀ x ∈ l, x = e ∨ R x e := by
  intro l
  induction l with
  | nil => intro e _ h; cases h
  | cons a t ih =>
    intro e hp hl x hx
    cases t with
    | nil =>
      simp only [List.getLast?_singleton, Option.some.injEq] at hl
      rcases List.mem_singleton.mp hx with rfl
      exact Or.inl hl
    | cons b t2 =>
      rw [List.getLast?_cons_cons] at hl
      rcases List.mem_cons.mp hx with rfl | hx2
      · have he : e ∈ b :: t2 := by
          have : e ∈ (b :: t2).getLast? := by rw [hl]; rfl
          exact List.mem_of_mem_getLast? this
        exact Or.inr ((List.pairwise_cons.mp hp).1 e he)
      · exact ih e (List.pairwise_cons.mp hp).2 hl x hx2

/-- C6 (amended): any valid evaluation of `get_last_open_delivery` on a
card with at least one open event returns an open event of that card whose
`entrega_at` is greatest among the card's open events; the source orders
only by `entrega_at`, so no property of `id` is guaranteed on ties. -/
theorem get_last_open_delivery_latest (store : List Delivery) (cat : String)
    (cid : Nat) (l : List Delivery)
    (h : isOpenQueryResult store cat cid l) (hne : l ≠ []) :
    ∃ e, get_last_open_delivery l = some e
      ∧ e ∈ openEvents store cat cid
      ∧ e.devolucion_at = none
      ∧ ∀ x ∈ openEvents store cat cid, oleNat x.entrega_at e.entrega_at = true := by
  refine ⟨l.getLast hne, List.getLast?_eq_getLast l hne, ?_, ?_, ?_⟩
  · exact h.1.mem_iff.mp (List.getLast_mem hne)
  · have hmem : l.getLast hne ∈ openEvents store cat cid :=
      h.1.mem_iff.mp (List.getLast_mem hne)
    have := (List.mem_filter.mp hmem).2
    simp only [decide_eq_true_eq] at this
    exact this.2.2
  · intro x hx
    have hxl : x ∈ l := h.1.mem_iff.mpr hx
    rcases getLast?_max_of_pairwise l (l.getLast hne) h.2
        (List.getLast?_eq_getLast l hne) x hxl with rfl | hrel
    · exact oleNat_refl _
    · exact hrel

/-- Witness for `get_last_open_delivery_latest`: a two-event store with one
open event. -/
theorem get_last_open_delivery_latest_witness :
    ∃ e, get_last_open_delivery [mkDel 1 (some 10) none "Ana"] = some e
      ∧ e ∈ openEvents
          [mkDel 1 (some 10) none "Ana", mkDel 2 (some 20) (some 30) "Beto"]
          "MODULO" 1
      ∧ e.devolucion_at = none
      ∧ ∀ x ∈ openEvents
          [mkDel 1 (some 10) none "Ana", mkDel 2 (some 20) (some 30) "Beto"]
          "MODULO" 1, oleNat x.entrega_at e.entrega_at = true :=
  get_last_open_delivery_latest
    [mkDel 1 (some 10) none "Ana", mkDel 2 (some 20) (some 30) "Beto"]
    "MODULO" 1 [mkDel 1 (some 10) none "Ana"] (by decide) (by decide)

/-- C6 counterexample: two open events share the latest `entrega_at`; the
reversed insertion order is also a valid sorted query result, and on it the
resolver returns the event with the *smaller* id, so the id tie-break the
claim states does not hold. -/
theorem get_last_open_delivery_tie_smaller_id :
    isOpenQueryResult [mkDel 1 (some 10) none "Ana", mkDel 2 (some 10) none "Beto"]
      "MODULO" 1 [mkDel 2 (some 10) none "Beto", mkDel 1 (some 10) none "Ana"]
    ∧ get_last_open_delivery [mkDel 2 (some 10) none "Beto", mkDel 1 (some 10) none "Ana"]
      = some (mkDel 1 (some 10) none "Ana")
    ∧ (mkDel 1 (some 10) none "Ana").id < (mkDel 2 (some 10) none "Beto").id
    ∧ (mkDel 1 (some 10) none "Ana").entrega_at
      = (mkDel 2 (some 10) none "Beto").entrega_at := by
  decide

/-- C5 counterexample: two stored events of the same card share
`entrega_at`; both insertion order and its reverse are valid results of the
`ORDER BY entrega_at` query, and the two orders make `compute_card_status`
disagree on both display text and state — the source has no secondary sort
key, so determinism on colliding timestamps fails. -/
theorem compute_card_status_tie_nondeterministic :
    isQueryResult [mkDel 1 (some 10) none "Ana", mkDel 2 (some 10) (some 20) "Beto"]
      "MODULO" 1 [mkDel 1 (some 10) none "Ana", mkDel 2 (some 10) (some 20) "Beto"]
    ∧ isQueryResult [mkDel 1 (some 10) none "Ana", mkDel 2 (some 10) (some 20) "Beto"]
      "MODULO" 1 [mkDel 2 (some 10) (some 20) "Beto", mkDel 1 (some 10) none "Ana"]
    ∧ compute_card_status
        [mkDel 1 (some 10) none "Ana", mkDel 2 (some 10) (some 20) "Beto"]
      ≠ compute_card_status
        [mkDel 2 (some 10) (some 20) "Beto", mkDel 1 (some 10) none "Ana"] := by
  decide

/-- C5 (amended): when the card's stored events carry pairwise distinct
`entrega_at` values, the `ORDER BY entrega_at` query result is unique, so
any two valid evaluations of `compute_card_status` over the same stored
events agree; with colliding timestamps no such guarantee exists (see the
counterexample). -/
theorem compute_card_status_deterministic_of_nodup_entrega
    (store : List Delivery) (cat : String) (cid : Nat) (l1 l2 : List Delivery)
    (h1 : isQueryResult store cat cid l1) (h2 : isQueryResult store cat cid l2)
    (hnd : ((cardEvents store cat cid).map Delivery.entrega_at).Nodup) :
    compute_card_status l1 = compute_card_status l2 := by
  have hp : List.Perm l1 l2 := h1.1.trans h2.1.symm
  have hnd1 : (l1.map Delivery.entrega_at).Nodup :=
    ((h1.1.map Delivery.entrega_at).symm).nodup hnd
  have hnd2 : (l2.map Delivery.entrega_at).Nodup :=
    ((h2.1.map Delivery.entrega_at).symm).nodup hnd
  have hkey1 : l1.Pairwise (fun a b => a.entrega_at ≠ b.entrega_at) :=
    List.pairwise_map.mp hnd1
  have hkey2 : l2.Pairwise (fun a b => b.entrega_at ≠ a.entrega_at) := by
    have := List.pairwise_map.mp hnd2
    exact this.imp (fun h => fun hc => h hc.symm)
  have hs1 : l1.Pairwise (fun a b =>
      oleNat a.entrega_at b.entrega_at = true ∧ a.entrega_at ≠ b.entrega_at) :=
    h1.2.and hkey1
  have hs2 : l2.Pairwise (fun a b =>
      oleNat a.entrega_at b.entrega_at = true ∧ b.entrega_at ≠ a.entrega_at) := by
    exact h2.2.and hkey2
  have heq : l1 = l2 := by
    haveI : IsAntisymm Delivery (fun a b =>
        oleNat a.entrega_at b.entrega_at = true ∧ a.entrega_at ≠ b.entrega_at) :=
      ⟨fun a b hab hba => absurd (oleNat_antisymm hab.1 hba.1) hab.2⟩
    refine List.eq_of_perm_of_sorted hp hs1 ?_
    exact hs2.imp (fun h => ⟨h.1, fun hc => h.2 hc.symm⟩)
  rw [heq]

/-- Witness for `compute_card_status_deterministic_of_nodup_entrega`: a
two-event store with distinct timestamps admits only one sorted order. -/
theorem compute_card_status_deterministic_witness :
    compute_card_status [mkDel 1 (some 10) none "Ana", mkDel 2 (some 20) (some 30) "Beto"]
      = compute_card_status
        [mkDel 1 (some 10) none "Ana", mkDel 2 (some 20) (some 30) "Beto"] :=
  compute_card_status_deterministic_of_nodup_entrega
    [mkDel 1 (some 10) none "Ana", mkDel 2 (some 20) (some 30) "Beto"] "MODULO" 1
    [mkDel 1 (some 10) none "Ana", mkDel 2 (some 20) (some 30) "Beto"]
    [mkDel 1 (some 10) none "Ana", mkDel 2 (some 20) (some 30) "Beto"]
    (by decide) (by decide) (by decide)

/-- C10: a two-event history obeying the at-most-one-open invariant — an
older open handover followed by a newer returned one — on which
`compute_card_status` reports the card available (`Devueltas`) while
`get_last_open_delivery` still yields the older un-returned event. -/
theorem status_available_while_open_exists :
    (openEvents [mkDel 1 (some 10) none "Ana", mkDel 2 (some 20) (some 30) "Beto"]
      "MODULO" 1).length ≤ 1
    ∧ isQueryResult [mkDel 1 (some 10) none "Ana", mkDel 2 (some 20) (some 30) "Beto"]
      "MODULO" 1 [mkDel 1 (some 10) none "Ana", mkDel 2 (some 20) (some 30) "Beto"]
    ∧ isOpenQueryResult [mkDel 1 (some 10) none "Ana", mkDel 2 (some 20) (some 30) "Beto"]
      "MODULO" 1 [mkDel 1 (some 10) none "Ana"]
    ∧ (compute_card_status
        [mkDel 1 (some 10) none "Ana", mkDel 2 (some 20) (some 30) "Beto"]).2
      = "Devueltas"
    ∧ get_last_open_delivery [mkDel 1 (some 10) none "Ana"]
      = some (mkDel 1 (some 10) none "Ana")
    ∧ (mkDel 1 (some 10) none "Ana").devolucion_at = none := by
  decide
